import Mathlib

/-!
Shallow embedding of the worker lifecycle and supervision subsystem of
`src/crates/base/src/worker_ctx.rs`, together with theorems settling the
specification claims about it.

External effects (filesystem probes, engine construction, socket I/O,
channel liveness) are supplied through explicit environment records, so
every definition is an executable function of the source logic over those
inputs.
-/

deriving instance DecidableEq for Except

namespace EdgeRuntime

/-- Machine-word bound for 64-bit unsigned arithmetic (`u64` / `usize`). -/
def U64 : Nat := 2 ^ 64

/-- Modelled from the spec: `city_hash_64` comes from the external `cityhash`
crate (not part of the repository sources). The spec requires only a stable,
deterministic, non-cryptographic 64-bit hash (`H(identical input)` is always
identical), so it is embedded as a concrete deterministic fold over the input
bytes reduced mod `2^64`. -/
def city_hash_64 (bytes : List Nat) : Nat :=
  bytes.foldl (fun h b => (h * 1000003 + b + 1) % U64) 1469598103934665603 % U64

/-- The byte view of a path string (the pool hashes `service_path` bytes). -/
def strBytes (s : String) : List Nat :=
  s.data.map Char.toNat

/-- Modelled from the spec: the `UserWorkerRuntimeOpts` variant payload of
`EdgeContextOpts` (declared in the `sb_worker_context` crate, not under
`src/`); its fields are exactly the ones `worker_ctx.rs` reads and writes:
`key`, `force_create`, `pool_msg_tx`, `events_msg_tx`. Channel send-handles
are embedded by their presence. -/
structure UserWorkerOpts where
  key : Option Nat
  force_create : Bool
  pool_msg_tx : Option Unit
  events_msg_tx : Option Unit
deriving Repr, DecidableEq

/-- Modelled from the spec: `EdgeContextOpts` (from `sb_worker_context`),
with the three tagged variants used by `worker_ctx.rs`. -/
inductive EdgeContextOpts where
  | UserWorker (opts : UserWorkerOpts)
  | MainWorker
  | EventsWorker
deriving Repr, DecidableEq

/-- Modelled from the spec: `EdgeContextInitOpts` (from `sb_worker_context`);
`env_vars` and `import_map_path` pass through untouched. -/
structure EdgeContextInitOpts where
  service_path : String
  env_vars : List (String × String)
  import_map_path : Option String
  no_module_cache : Bool
  conf : EdgeContextOpts
deriving Repr, DecidableEq

/-- Modelled from the spec: the `WorkerEvents` telemetry variants used in
`worker_ctx.rs` (`Boot`, `BootFailure`, `UncaughtException`, `MemoryLimit`). -/
inductive WorkerEvents where
  | Boot (boot_time : Nat)
  | BootFailure (msg : String)
  | UncaughtException (exception : String)
  | MemoryLimit
deriving Repr, DecidableEq

/-- Resource limits hard-coded for user workers (`WorkerLimits` struct,
worker_ctx.rs lines 143-148). -/
structure WorkerLimits where
  wall_clock_limit_ms : Nat
  low_memory_multiplier : Nat
  max_cpu_bursts : Nat
  cpu_burst_interval_ms : Nat
deriving Repr, DecidableEq

/-- The limit values `create_worker` passes to `create_supervisor`
(worker_ctx.rs lines 294-297). -/
def defaultWorkerLimits : WorkerLimits :=
  { wall_clock_limit_ms := 60 * 1000
    low_memory_multiplier := 5
    max_cpu_bursts := 10
    cpu_burst_interval_ms := 100 }

/-! ## Resource supervisor (worker_ctx.rs lines 150-238) -/

/-- Reason tag of the supervisor kill log (`error!` lines 205, 213, 221). -/
inductive KillReason where
  | cpu
  | wallClock
  | memory
deriving Repr, DecidableEq

/-- An event one iteration of the supervisor `select!` loop can observe:
a `SIGALRM` delivery (tagged with the wall-clock instant, in ms, at which it
is handled), expiry of the wall-clock sleep, or a memory-pressure
notification from the near-heap-limit callback. -/
inductive SupEvent where
  | sigalrm (now_ms : Nat)
  | deadline
  | memory
deriving Repr, DecidableEq

/-- Observable actions of the supervisor thread: the cross-thread
`terminate_execution()` call, the kill log carrying the worker key, and the
`force_quit_tx.send(())` performed after the loop returns. -/
inductive SupAction where
  | terminateExecution
  | logKill (reason : KillReason) (key : Nat)
  | sendForceQuit
deriving Repr, DecidableEq

/-- Mutable state of the supervisor loop: the burst counter and the
wall-clock instant (ms) of the last counted burst (`bursts`, `last_burst`;
worker_ctx.rs lines 188-189). -/
structure SupState where
  bursts : Nat
  last_burst_ms : Nat
deriving Repr, DecidableEq

/-- The `SIGALRM` branch state update (worker_ctx.rs lines 199-202): the
burst counter increments, and the marker resets, exactly when strictly more
than `cpu_burst_interval_ms` of wall time elapsed since the last counted
burst. -/
def sigalrmState (limits : WorkerLimits) (st : SupState) (now_ms : Nat) : SupState :=
  if now_ms - st.last_burst_ms > limits.cpu_burst_interval_ms then
    { bursts := st.bursts + 1, last_burst_ms := now_ms }
  else st

/-- One iteration of the supervisor `select!` loop (worker_ctx.rs lines
194-225): returns the new state, the actions performed, and whether the loop
returned (the worker was killed). -/
def supervisorStep (limits : WorkerLimits) (key : Nat) (st : SupState) :
    SupEvent → SupState × List SupAction × Bool
  | SupEvent.sigalrm now_ms =>
    let st2 := sigalrmState limits st now_ms
    if st2.bursts > limits.max_cpu_bursts then
      (st2, [SupAction.terminateExecution, SupAction.logKill KillReason.cpu key], true)
    else
      (st2, [], false)
  | SupEvent.deadline =>
    (st, [SupAction.terminateExecution, SupAction.logKill KillReason.wallClock key], true)
  | SupEvent.memory =>
    (st, [SupAction.terminateExecution, SupAction.logKill KillReason.memory key], true)

/-- The supervisor loop run over a finite sequence of observed events:
returns the action trace, whether it killed the worker, and the events left
unprocessed after the loop returned (killed is terminal, so everything after
the breach event is untouched). -/
def supervisorRun (limits : WorkerLimits) (key : Nat) :
    SupState → List SupEvent → List SupAction × Bool × List SupEvent
  | _, [] => ([], false, [])
  | st, e :: rest =>
    match supervisorStep limits key st e with
    | (st2, acts, killed) =>
      if killed then (acts, true, rest)
      else
        match supervisorRun limits key st2 rest with
        | (acts2, k2, rem) => (acts ++ acts2, k2, rem)

/-- The whole supervisor thread (worker_ctx.rs lines 177-233): it blocks on
the loop, and once the loop returns it sends the `force_quit` signal. -/
def supervisorThread (limits : WorkerLimits) (key : Nat) (st : SupState)
    (events : List SupEvent) : List SupAction :=
  let r := supervisorRun limits key st events
  if r.2.1 then r.1 ++ [SupAction.sendForceQuit] else r.1

/-- The near-heap-limit callback registered by `create_supervisor`
(worker_ctx.rs lines 161-174): it notifies the supervisor over the
memory-limit channel and returns `cur * low_memory_multiplier` as the new
heap allowance, in machine (`usize`) arithmetic. The `Bool` records that a
notification send is attempted. -/
def near_heap_limit_callback (limits : WorkerLimits) (cur : Nat) : Nat × Bool :=
  ((cur * limits.low_memory_multiplier) % U64, true)

/-! ## CPU timer (worker_ctx.rs lines 61-129) -/

/-- POSIX `SIGALRM` signal number on Linux. -/
def SIGALRM : Nat := 14

/-- The timer configuration `CPUTimer::start` installs. -/
structure TimerConfig where
  clock_thread_cputime : Bool
  sigev_signo : Nat
  sigev_notify_thread_id : Int
  interval_ns : Nat
  initial_ns : Nat
deriving Repr, DecidableEq

/-- Outcomes of the two timer syscalls. -/
structure CPUTimerEnv where
  timer_create_ok : Bool
  timer_settime_ok : Bool
  os_err : String
deriving Repr, DecidableEq

/-- `CPUTimer::start` on Linux (worker_ctx.rs lines 87-122): creates a
`CLOCK_THREAD_CPUTIME_ID` timer with `SIGEV_THREAD_ID` delivery of `SIGALRM`
to the given thread and arms it with a 10 ms initial expiry and a 10 ms
interval. -/
def CPUTimer.start (env : CPUTimerEnv) (thread_id : Int) : Except String TimerConfig :=
  if env.timer_create_ok = false then Except.error env.os_err
  else if env.timer_settime_ok = false then Except.error env.os_err
  else Except.ok
    { clock_thread_cputime := true
      sigev_signo := SIGALRM
      sigev_notify_thread_id := thread_id
      interval_ns := 10 * 1000000
      initial_ns := 10 * 1000000 }

/-! ## Worker host (`create_worker`, worker_ctx.rs lines 240-377) -/

/-- Observable actions of the worker-host thread spawned by
`create_worker`. `ArmCpuTimer` would be the `CPUTimer::start` invocation;
the corresponding call site (worker_ctx.rs lines 311-313) is commented out
in the source. -/
inductive HostAction where
  | SpawnThread (name : String)
  | SendBootResult (ok : Bool)
  | StartSupervisor (key : Nat)
  | ArmCpuTimer (thread_id : Int)
  | RunEngine
  | EmitEvent (e : WorkerEvents)
  | SendShutdown (key : Nat)
deriving Repr, DecidableEq

/-- External outcomes `create_worker` depends on: whether the service path
exists on the filesystem, whether `DenoRuntime::new` succeeds (and with
which error message when it fails), and the outcome of `worker.run`. -/
structure CreateWorkerEnv where
  path_exists : Bool
  construct_ok : Bool
  construct_err : String
  run_ok : Bool
  run_err : String
deriving Repr, DecidableEq

/-- Worker thread name (worker_ctx.rs lines 253-265). -/
def workerThreadName : EdgeContextOpts → String
  | EdgeContextOpts.UserWorker o =>
    match o.key with
    | some k => "sb-iso-" ++ toString k
    | none => "isolate-worker-unknown"
  | EdgeContextOpts.MainWorker => "main-worker"
  | EdgeContextOpts.EventsWorker => "events-worker"

/-- The `(worker_key, pool_msg_tx, event_msg_tx)` triple `create_worker`
extracts from the configuration (worker_ctx.rs lines 253-265). -/
def workerConfParts : EdgeContextOpts → Option Nat × Option Unit × Option Unit
  | EdgeContextOpts.UserWorker o => (o.key, o.pool_msg_tx, o.events_msg_tx)
  | EdgeContextOpts.MainWorker => (none, none, none)
  | EdgeContextOpts.EventsWorker => (none, none, none)

/-- Modelled from the spec: `DenoRuntime.is_user_runtime` (the engine is an
external collaborator); a runtime is a user runtime exactly when built from
the `UserWorker` configuration. -/
def isUserRuntime : EdgeContextOpts → Bool
  | EdgeContextOpts.UserWorker _ => true
  | _ => false

/-- Modelled from the spec: `send_event_if_event_manager_available`
(`src/crates/base/src/utils`, not included under `src/`): emits the event on
the host trace exactly when an event sink is configured. -/
def hostEmit (sink : Option Unit) (e : WorkerEvents) : List HostAction :=
  match sink with
  | some _ => [HostAction.EmitEvent e]
  | none => []

/-- Self-eviction on host exit (worker_ctx.rs lines 335-345): `Shutdown(key)`
is sent exactly when both a worker key and a pool sender are present. -/
def shutdownActions (worker_key : Option Nat) (pool_tx : Option Unit) : List HostAction :=
  match worker_key, pool_tx with
  | some k, some _ => [HostAction.SendShutdown k]
  | _, _ => []

/-- `create_worker` (worker_ctx.rs lines 240-377): returns the value of the
awaited boot result (`Ok` with the request sender, or the boot error) paired
with the complete action trace of the spawned host thread. If the service
path does not exist it bails before spawning anything, so the trace is
empty. On construction failure the boot channel carries the fixed
`"worker boot error"` message while the actual construction error is emitted
as an `UncaughtException` event from the host thread. -/
def create_worker (env : CreateWorkerEnv) (init_opts : EdgeContextInitOpts) :
    Except String Unit × List HostAction :=
  if env.path_exists = false then
    (Except.error ("service does not exist \"" ++ init_opts.service_path ++ "\""), [])
  else
    let parts := workerConfParts init_opts.conf
    let worker_key := parts.1
    let pool_tx := parts.2.1
    let events_tx := parts.2.2
    let name := workerThreadName init_opts.conf
    if env.construct_ok = false then
      (Except.error "worker boot error",
        HostAction.SpawnThread name
          :: HostAction.SendBootResult false
          :: (hostEmit events_tx (WorkerEvents.UncaughtException env.construct_err)
              ++ shutdownActions worker_key pool_tx))
    else
      (Except.ok (),
        HostAction.SpawnThread name
          :: HostAction.SendBootResult true
          :: ((if isUserRuntime init_opts.conf then
                [HostAction.StartSupervisor (worker_key.getD 0)]
              else [])
              ++ [HostAction.RunEngine]
              ++ (if env.run_ok then []
                  else hostEmit events_tx (WorkerEvents.UncaughtException env.run_err))
              ++ shutdownActions worker_key pool_tx))

/-- Whether a host trace contains a CPU-timer arming action. -/
def isArm : HostAction → Bool
  | HostAction.ArmCpuTimer _ => true
  | _ => false

/-- `armsTimer tr` is true when the trace `tr` arms the CPU timer. -/
def armsTimer (tr : List HostAction) : Bool :=
  tr.any isArm

/-! ## Request transport (`handle_request`, worker_ctx.rs lines 35-59, and
`send_user_worker_request`, lines 379-395) -/

/-- External outcomes the per-request transport depends on: whether
`UnixStream::pair()` succeeds, whether the HTTP/1.1 client handshake
succeeds (each with its error message), and the outcome of
`send_request` (a response, embedded as a `Nat` token, or a hyper error). -/
structure TransportEnv where
  pair_ok : Bool
  pair_err : String
  handshake_ok : Bool
  handshake_err : String
  send_result : Except String Nat
deriving Repr, DecidableEq

/-- Observable outcome of `handle_request`: its returned value, whether the
far stream was pushed to the worker inbox, how many sends were performed on
the request's `res_tx` reply slot, and the value sent (if any). When the
function returns early with an error the `WorkerRequestMsg` (and with it
`res_tx`) is dropped without any send. -/
structure HandleRequestOutcome where
  result : Except String Unit
  stream_sent : Bool
  slot_sends : Nat
  slot_value : Option (Except String Nat)
deriving Repr, DecidableEq

/-- `handle_request` (worker_ctx.rs lines 35-59): create the stream pair,
push the far end to the worker, handshake, send the request, and perform
exactly one send of the result (success or hyper error) on `res_tx`. An
early failure returns the error with the reply slot dropped, unsent. -/
def handle_request (env : TransportEnv) : HandleRequestOutcome :=
  if env.pair_ok = false then
    { result := Except.error env.pair_err
      stream_sent := false
      slot_sends := 0
      slot_value := none }
  else if env.handshake_ok = false then
    { result := Except.error env.handshake_err
      stream_sent := true
      slot_sends := 0
      slot_value := none }
  else
    { result := Except.ok ()
      stream_sent := true
      slot_sends := 1
      slot_value := some env.send_result }

/-- `send_user_worker_request` (worker_ctx.rs lines 379-395): sends the
message on the worker inbox (failing if the inbox is closed), then awaits
`res_rx`; a slot dropped without a send surfaces as a receive error, and a
delivered value is flattened (`res_rx.await??`). -/
def send_user_worker_request (inbox_open : Bool) (tenv : TransportEnv) :
    Except String Nat :=
  if inbox_open = false then Except.error "channel closed"
  else
    match (handle_request tenv).slot_value with
    | some r => r
    | none => Except.error "channel closed"

/-- External inputs of one detached `SendRequest` dispatcher task
(worker_ctx.rs lines 504-523): worker-inbox liveness, the transport
outcomes, whether the caller still holds its reply receiver, and whether an
event sink is configured on the profile. -/
structure DispatchEnv where
  inbox_open : Bool
  transport : TransportEnv
  caller_open : Bool
  event_sink : Option Unit
deriving Repr, DecidableEq

/-- Observable outcome of one dispatcher task: it attempts exactly one send
on the caller's reply slot; a transport error is additionally emitted as an
`UncaughtException` event when a sink is present; a dropped caller slot is
only logged (`error!`), never escalated (`pool_bailed` records that the task
has no path that aborts the pool task). -/
structure DispatchOutcome where
  caller_send_attempts : Nat
  caller_delivered : Bool
  caller_value : Except String Nat
  uncaught_emitted : Bool
  logged_drop : Bool
  pool_bailed : Bool
deriving Repr, DecidableEq

/-- The detached dispatcher task spawned for a `SendRequest` against a live
profile (worker_ctx.rs lines 504-523). -/
def dispatchTask (env : DispatchEnv) : DispatchOutcome :=
  let r := send_user_worker_request env.inbox_open env.transport
  { caller_send_attempts := 1
    caller_delivered := env.caller_open
    caller_value := r
    uncaught_emitted :=
      match r with
      | Except.error _ => env.event_sink.isSome
      | Except.ok _ => false
    logged_drop := !env.caller_open
    pool_bailed := false }

/-! ## Worker pool (`create_user_worker_pool`, worker_ctx.rs lines 419-543) -/

/-- A pool registry entry (worker_ctx.rs lines 29-33): the worker's request
sender (embedded as a channel token) and the optional event sink. -/
structure UserWorkerProfile where
  worker_event_tx : Nat
  event_manager_tx : Option Unit
deriving Repr, DecidableEq

/-- `HashMap::get` on the registry, embedded over an association list with
unique keys. -/
def lookupProfile : List (Nat × UserWorkerProfile) → Nat → Option UserWorkerProfile
  | [], _ => none
  | (k, v) :: rest, key => if k = key then some v else lookupProfile rest key

/-- `HashMap::insert`: replaces the entry when the key is present, otherwise
adds it. -/
def insertProfile (key : Nat) (v : UserWorkerProfile) :
    List (Nat × UserWorkerProfile) → List (Nat × UserWorkerProfile)
  | [] => [(key, v)]
  | (k, w) :: rest =>
    if k = key then (key, v) :: rest else (k, w) :: insertProfile key v rest

/-- `HashMap::remove`; idempotent on absent keys. -/
def removeProfile (key : Nat) :
    List (Nat × UserWorkerProfile) → List (Nat × UserWorkerProfile)
  | [] => []
  | (k, w) :: rest => if k = key then rest else (k, w) :: removeProfile key rest

/-- Modelled from the spec: the `UserWorkerMsgs` command variants (declared
in `sb_worker_context`, not under `src/`) as consumed by the pool loop. Each
command carrying a oneshot reply sender is tagged with whether the caller
still holds the receiving end. Requests are embedded as `Nat` tokens. -/
inductive UserWorkerMsgs where
  | Create (opts : EdgeContextInitOpts) (reply_open : Bool)
  | SendRequest (key : Nat) (req : Nat) (reply_open : Bool)
  | Shutdown (key : Nat)
deriving Repr, DecidableEq

/-- A reply value the pool task itself sends on a command's reply slot:
`Ok(CreateUserWorkerResult { key })` or an error message. -/
inductive PoolReply where
  | okKey (key : Nat)
  | err (msg : String)
deriving Repr, DecidableEq

/-- External inputs of one pool-loop iteration: the current epoch
milliseconds (used to salt forced keys), the environment driving the
`create_worker` call (if one happens), the measured boot time, and the
channel token for a freshly created worker's request sender. -/
structure PoolEnv where
  epoch_millis : Nat
  cw : CreateWorkerEnv
  boot_elapsed_s : Nat
  req_tx_id : Nat
deriving Repr, DecidableEq

/-- Observable outcome of one pool-loop iteration: the registry after the
command, the reply value attempted on the command's own slot (with whether
it was delivered), the telemetry events emitted by the pool task, the host
trace of any `create_worker` invocation, whether a detached dispatcher task
was spawned, whether the pool task bailed (`bail!`), and whether it hit the
`unreachable!`. -/
structure PoolStepOutcome where
  registry : List (Nat × UserWorkerProfile)
  reply : Option PoolReply
  reply_delivered : Bool
  events : List WorkerEvents
  host_actions : List HostAction
  invoked_create_worker : Bool
  spawned_dispatcher : Bool
  bailed : Option String
  panicked : Bool
deriving Repr, DecidableEq

/-- Pool-side event emission (`send_event_if_event_manager_available` with
the pool's optional sink). -/
def poolEmit (sink : Option Unit) (e : WorkerEvents) : List WorkerEvents :=
  match sink with
  | some _ => [e]
  | none => []

/-- The key-derivation input (worker_ctx.rs lines 440-445): the service path
itself, or the path salted with `"-" ++ epoch_millis` when `force_create`
is set. -/
def createKeyInput (force_create : Bool) (service_path : String)
    (epoch_millis : Nat) : String :=
  if force_create then service_path ++ "-" ++ toString epoch_millis
  else service_path

/-- The worker key (worker_ctx.rs line 446): the 64-bit hash of the key
input. -/
def createKey (force_create : Bool) (service_path : String)
    (epoch_millis : Nat) : Nat :=
  city_hash_64 (strBytes (createKeyInput force_create service_path epoch_millis))

/-- One iteration of the pool loop (worker_ctx.rs lines 429-536) processing
a single command against the registry. -/
def poolStep (sink : Option Unit) (env : PoolEnv)
    (registry : List (Nat × UserWorkerProfile)) :
    UserWorkerMsgs → PoolStepOutcome
  | UserWorkerMsgs.Create opts reply_open =>
    match opts.conf with
    | EdgeContextOpts.UserWorker u =>
      let key := createKey u.force_create opts.service_path env.epoch_millis
      if !u.force_create && (lookupProfile registry key).isSome then
        { registry := registry
          reply := some (PoolReply.okKey key)
          reply_delivered := reply_open
          events := []
          host_actions := []
          invoked_create_worker := false
          spawned_dispatcher := false
          bailed := if reply_open then none else some "main worker receiver dropped"
          panicked := false }
      else
        let u2 : UserWorkerOpts :=
          { key := some key
            force_create := u.force_create
            pool_msg_tx := some ()
            events_msg_tx := sink }
        let opts2 : EdgeContextInitOpts :=
          { opts with conf := EdgeContextOpts.UserWorker u2 }
        let res := create_worker env.cw opts2
        match res.1 with
        | Except.ok _ =>
          { registry :=
              insertProfile key
                { worker_event_tx := env.req_tx_id, event_manager_tx := sink } registry
            reply := some (PoolReply.okKey key)
            reply_delivered := reply_open
            events := poolEmit sink (WorkerEvents.Boot env.boot_elapsed_s)
            host_actions := res.2
            invoked_create_worker := true
            spawned_dispatcher := false
            bailed := if reply_open then none else some "main worker receiver dropped"
            panicked := false }
        | Except.error e =>
          { registry := registry
            reply := some (PoolReply.err e)
            reply_delivered := reply_open
            events := poolEmit sink (WorkerEvents.BootFailure e)
            host_actions := res.2
            invoked_create_worker := true
            spawned_dispatcher := false
            bailed := if reply_open then none else some "main worker receiver dropped"
            panicked := false }
    | _ =>
      { registry := registry
        reply := none
        reply_delivered := false
        events := []
        host_actions := []
        invoked_create_worker := false
        spawned_dispatcher := false
        bailed := none
        panicked := true }
  | UserWorkerMsgs.SendRequest key _req reply_open =>
    match lookupProfile registry key with
    | some _ =>
      { registry := registry
        reply := none
        reply_delivered := false
        events := []
        host_actions := []
        invoked_create_worker := false
        spawned_dispatcher := true
        bailed := none
        panicked := false }
    | none =>
      { registry := registry
        reply := some (PoolReply.err "user worker not available")
        reply_delivered := reply_open
        events := []
        host_actions := []
        invoked_create_worker := false
        spawned_dispatcher := false
        bailed := if reply_open then none else some "main worker receiver dropped"
        panicked := false }
  | UserWorkerMsgs.Shutdown key =>
    { registry := removeProfile key registry
      reply := none
      reply_delivered := false
      events := []
      host_actions := []
      invoked_create_worker := false
      spawned_dispatcher := false
      bailed := none
      panicked := false }

/-! ## Helper lemmas -/

/-- A supervisor step that kills performs exactly the terminate call followed
by the keyed kill log. -/
theorem supervisorStep_killed_acts (limits : WorkerLimits) (key : Nat)
    (st : SupState) (e : SupEvent)
    (h : (supervisorStep limits key st e).2.2 = true) :
    ∃ r, (supervisorStep limits key st e).2.1
        = [SupAction.terminateExecution, SupAction.logKill r key] := by
  cases e with
  | sigalrm now =>
    by_cases hb : (sigalrmState limits st now).bursts > limits.max_cpu_bursts
    · exact ⟨KillReason.cpu, by simp [supervisorStep, hb]⟩
    · simp [supervisorStep, hb] at h
  | deadline => exact ⟨KillReason.wallClock, rfl⟩
  | memory => exact ⟨KillReason.memory, rfl⟩

/-- A supervisor step that does not kill performs no action. -/
theorem supervisorStep_not_killed (limits : WorkerLimits) (key : Nat)
    (st : SupState) (e : SupEvent)
    (h : (supervisorStep limits key st e).2.2 = false) :
    (supervisorStep limits key st e).2.1 = [] := by
  cases e with
  | sigalrm now =>
    by_cases hb : (sigalrmState limits st now).bursts > limits.max_cpu_bursts
    · simp [supervisorStep, hb] at h
    · simp [supervisorStep, hb]
  | deadline => simp [supervisorStep] at h
  | memory => simp [supervisorStep] at h

/-- A killed supervisor run traces exactly one terminate and one keyed kill
log, and leaves everything after the breach event unprocessed. -/
theorem supervisorRun_killed (limits : WorkerLimits) (key : Nat) :
    ∀ (events : List SupEvent) (st : SupState),
      (supervisorRun limits key st events).2.1 = true →
      (∃ r, (supervisorRun limits key st events).1
          = [SupAction.terminateExecution, SupAction.logKill r key])
      ∧ ∃ pre, events = pre ++ (supervisorRun limits key st events).2.2 := by
  intro events
  induction events with
  | nil =>
    intro st h
    simp [supervisorRun] at h
  | cons e rest ih =>
    intro st h
    rcases hstep : supervisorStep limits key st e with ⟨st2, acts, killed⟩
    cases killed with
    | true =>
      have hacts := supervisorStep_killed_acts limits key st e (by rw [hstep])
      rw [hstep] at hacts
      simp only [supervisorRun, hstep]
      simp only at hacts
      exact ⟨hacts, ⟨[e], by simp⟩⟩
    | false =>
      have hacts := supervisorStep_not_killed limits key st e (by rw [hstep])
      rw [hstep] at hacts
      simp only at hacts
      rcases htail : supervisorRun limits key st2 rest with ⟨acts2, k2, rem⟩
      simp only [supervisorRun, hstep, htail] at h ⊢
      simp only [if_neg Bool.false_ne_true] at h ⊢
      have ih2 := ih st2
      rw [htail] at ih2
      simp only at ih2
      obtain ⟨⟨r, h1⟩, pre, h2⟩ := ih2 h
      refine ⟨⟨r, ?_⟩, ⟨e :: pre, ?_⟩⟩
      · simp [hacts, h1]
      · simp [h2]

/-! ## Claims -/

/-- Claim C2: every admitted `WorkerRequestMsg` gets exactly one send on its
`res_tx` reply slot (the transport result, success or hyper error), or the
slot is dropped with no send when the transport fails before the request is
issued; and every `SendRequest` dispatcher task against a live profile
attempts exactly one send on the caller's reply slot, delivered exactly when
the caller still holds the receiver. -/
theorem request_single_reply (env : TransportEnv) (denv : DispatchEnv) :
    (handle_request env).slot_sends
        = (if env.pair_ok && env.handshake_ok then 1 else 0)
    ∧ (handle_request env).slot_sends ≤ 1
    ∧ (handle_request env).slot_value
        = (if env.pair_ok && env.handshake_ok then some env.send_result else none)
    ∧ (dispatchTask denv).caller_send_attempts = 1
    ∧ (dispatchTask denv).caller_delivered = denv.caller_open := by
  cases hp : env.pair_ok <;> cases hh : env.handshake_ok <;>
    simp [handle_request, dispatchTask, hp, hh]

/-- Claim C3: on the first breach of any of the three limits the supervisor
calls `terminate_execution`, logs with the worker key, stops processing
further events, and then sends the `force_quit` signal. -/
theorem supervisor_breach_terminal (limits : WorkerLimits) (key : Nat)
    (st : SupState) (events : List SupEvent)
    (h : (supervisorRun limits key st events).2.1 = true) :
    (∃ r, supervisorThread limits key st events
        = [SupAction.terminateExecution, SupAction.logKill r key,
            SupAction.sendForceQuit])
    ∧ ∃ pre, events = pre ++ (supervisorRun limits key st events).2.2 := by
  obtain ⟨⟨r, h1⟩, pre, h2⟩ := supervisorRun_killed limits key events st h
  refine ⟨⟨r, ?_⟩, pre, h2⟩
  simp [supervisorThread, h, h1]

/-- Witness for C3: a run that breaches the wall-clock deadline after one
debounced `SIGALRM`; the memory event after the breach is left unprocessed. -/
theorem supervisor_breach_terminal_witness :
    (supervisorRun defaultWorkerLimits 42 { bursts := 0, last_burst_ms := 0 }
        [SupEvent.sigalrm 5, SupEvent.deadline, SupEvent.memory]).2.1 = true
    ∧ ((∃ r, supervisorThread defaultWorkerLimits 42
            { bursts := 0, last_burst_ms := 0 }
            [SupEvent.sigalrm 5, SupEvent.deadline, SupEvent.memory]
          = [SupAction.terminateExecution, SupAction.logKill r 42,
              SupAction.sendForceQuit])
        ∧ ∃ pre, [SupEvent.sigalrm 5, SupEvent.deadline, SupEvent.memory]
            = pre ++ (supervisorRun defaultWorkerLimits 42
                { bursts := 0, last_burst_ms := 0 }
                [SupEvent.sigalrm 5, SupEvent.deadline, SupEvent.memory]).2.2) :=
  ⟨by decide,
    supervisor_breach_terminal defaultWorkerLimits 42
      { bursts := 0, last_burst_ms := 0 }
      [SupEvent.sigalrm 5, SupEvent.deadline, SupEvent.memory] (by decide)⟩

/-- Claim C5: on each `SIGALRM` the burst counter increments (and the marker
resets) exactly when strictly more than 100 ms of wall time elapsed since
the last counted burst, and the supervisor kills on exactly the signal whose
handling pushes the counter over `max_cpu_bursts = 10` - never earlier. -/
theorem cpu_burst_policy (key : Nat) (st : SupState) (now : Nat)
    (hinv : st.bursts ≤ 10) :
    ((supervisorStep defaultWorkerLimits key st (SupEvent.sigalrm now)).1.bursts
        = if now - st.last_burst_ms > 100 then st.bursts + 1 else st.bursts)
    ∧ ((supervisorStep defaultWorkerLimits key st (SupEvent.sigalrm now)).1.last_burst_ms
        = if now - st.last_burst_ms > 100 then now else st.last_burst_ms)
    ∧ ((supervisorStep defaultWorkerLimits key st (SupEvent.sigalrm now)).2.2 = true
        ↔ st.bursts = 10 ∧ now - st.last_burst_ms > 100)
    ∧ ((supervisorStep defaultWorkerLimits key st (SupEvent.sigalrm now)).2.1
        = if st.bursts = 10 ∧ now - st.last_burst_ms > 100 then
            [SupAction.terminateExecution, SupAction.logKill KillReason.cpu key]
          else []) := by
  by_cases hdb : now - st.last_burst_ms > 100
  · by_cases hb : st.bursts = 10
    · have hgt : st.bursts + 1 > 10 := by omega
      simp [supervisorStep, sigalrmState, defaultWorkerLimits, hdb, hb, hgt]
    · have hng : ¬ st.bursts + 1 > 10 := by omega
      simp [supervisorStep, sigalrmState, defaultWorkerLimits, hdb, hb, hng]
  · have hng : ¬ st.bursts > 10 := by omega
    simp [supervisorStep, sigalrmState, defaultWorkerLimits, hdb, hng]

/-- Witness for C5: with ten counted bursts and 101 ms since the last one,
the eleventh counted burst kills the worker. -/
theorem cpu_burst_policy_witness :
    ({ bursts := 10, last_burst_ms := 0 } : SupState).bursts ≤ 10
    ∧ (((supervisorStep defaultWorkerLimits 9
            { bursts := 10, last_burst_ms := 0 } (SupEvent.sigalrm 101)).1.bursts
        = if 101 - ({ bursts := 10, last_burst_ms := 0 } : SupState).last_burst_ms > 100
          then ({ bursts := 10, last_burst_ms := 0 } : SupState).bursts + 1
          else ({ bursts := 10, last_burst_ms := 0 } : SupState).bursts)
    ∧ ((supervisorStep defaultWorkerLimits 9
            { bursts := 10, last_burst_ms := 0 } (SupEvent.sigalrm 101)).1.last_burst_ms
        = if 101 - ({ bursts := 10, last_burst_ms := 0 } : SupState).last_burst_ms > 100
          then 101 else ({ bursts := 10, last_burst_ms := 0 } : SupState).last_burst_ms)
    ∧ ((supervisorStep defaultWorkerLimits 9
            { bursts := 10, last_burst_ms := 0 } (SupEvent.sigalrm 101)).2.2 = true
        ↔ ({ bursts := 10, last_burst_ms := 0 } : SupState).bursts = 10
          ∧ 101 - ({ bursts := 10, last_burst_ms := 0 } : SupState).last_burst_ms > 100)
    ∧ ((supervisorStep defaultWorkerLimits 9
            { bursts := 10, last_burst_ms := 0 } (SupEvent.sigalrm 101)).2.1
        = if ({ bursts := 10, last_burst_ms := 0 } : SupState).bursts = 10
            ∧ 101 - ({ bursts := 10, last_burst_ms := 0 } : SupState).last_burst_ms > 100
          then [SupAction.terminateExecution, SupAction.logKill KillReason.cpu 9]
          else [])) :=
  ⟨by decide, cpu_burst_policy 9 { bursts := 10, last_burst_ms := 0 } 101 (by decide)⟩

/-- Claim C6: the near-heap-limit callback returns exactly
`current_limit * low_memory_multiplier` (5) and notifies the supervisor, and
the first memory notification makes the supervisor terminate the engine. -/
theorem memory_breach_policy (key cur : Nat) (st : SupState)
    (h : cur * 5 < U64) :
    (near_heap_limit_callback defaultWorkerLimits cur).1 = cur * 5
    ∧ (near_heap_limit_callback defaultWorkerLimits cur).2 = true
    ∧ supervisorStep defaultWorkerLimits key st SupEvent.memory
        = (st, [SupAction.terminateExecution,
            SupAction.logKill KillReason.memory key], true) := by
  refine ⟨?_, rfl, rfl⟩
  simp only [near_heap_limit_callback, defaultWorkerLimits]
  exact Nat.mod_eq_of_lt h

/-- Witness for C6 at a 1 MiB current limit. -/
theorem memory_breach_policy_witness :
    1048576 * 5 < U64
    ∧ ((near_heap_limit_callback defaultWorkerLimits 1048576).1 = 1048576 * 5
      ∧ (near_heap_limit_callback defaultWorkerLimits 1048576).2 = true
      ∧ supervisorStep defaultWorkerLimits 7 { bursts := 0, last_burst_ms := 0 }
            SupEvent.memory
          = ({ bursts := 0, last_burst_ms := 0 },
              [SupAction.terminateExecution,
                SupAction.logKill KillReason.memory 7], true)) :=
  ⟨by decide,
    memory_breach_policy 7 1048576 { bursts := 0, last_burst_ms := 0 } (by decide)⟩

/-- Claim C7: a `SendRequest` whose key has no profile replies
`Err("user worker not available")`, spawns no dispatcher task, and leaves
the registry unchanged. -/
theorem send_request_missing_key (sink : Option Unit) (env : PoolEnv)
    (registry : List (Nat × UserWorkerProfile)) (key req : Nat)
    (habs : lookupProfile registry key = none) :
    (poolStep sink env registry (UserWorkerMsgs.SendRequest key req true)).reply
        = some (PoolReply.err "user worker not available")
    ∧ (poolStep sink env registry
        (UserWorkerMsgs.SendRequest key req true)).reply_delivered = true
    ∧ (poolStep sink env registry
        (UserWorkerMsgs.SendRequest key req true)).spawned_dispatcher = false
    ∧ (poolStep sink env registry
        (UserWorkerMsgs.SendRequest key req true)).registry = registry
    ∧ (poolStep sink env registry
        (UserWorkerMsgs.SendRequest key req true)).bailed = none := by
  simp [poolStep, habs]

/-- A concrete pool environment used by witnesses. -/
def poolEnvW : PoolEnv :=
  { epoch_millis := 0
    cw :=
      { path_exists := true
        construct_ok := true
        construct_err := ""
        run_ok := true
        run_err := "" }
    boot_elapsed_s := 0
    req_tx_id := 1 }

/-- Claim C1: a non-forced `Create` computes the key as the 64-bit hash of
the service path; when a profile for that key exists, the pool replies
`Ok{key}` immediately, constructs no worker, and leaves the registry
unchanged; and the non-forced key is independent of the epoch clock, so two
consecutive non-forced `Create`s for one path return equal keys. -/
theorem create_dedup_reuses_worker (sink : Option Unit) (env : PoolEnv)
    (registry : List (Nat × UserWorkerProfile))
    (opts : EdgeContextInitOpts) (u : UserWorkerOpts)
    (hconf : opts.conf = EdgeContextOpts.UserWorker u)
    (hforce : u.force_create = false)
    (hkey : (lookupProfile registry
        (city_hash_64 (strBytes opts.service_path))).isSome = true) :
    (poolStep sink env registry (UserWorkerMsgs.Create opts true)).reply
        = some (PoolReply.okKey (city_hash_64 (strBytes opts.service_path)))
    ∧ (poolStep sink env registry (UserWorkerMsgs.Create opts true)).registry
        = registry
    ∧ (poolStep sink env registry
        (UserWorkerMsgs.Create opts true)).invoked_create_worker = false
    ∧ (poolStep sink env registry (UserWorkerMsgs.Create opts true)).host_actions
        = []
    ∧ (poolStep sink env registry (UserWorkerMsgs.Create opts true)).bailed = none
    ∧ ∀ e1 e2 : Nat, createKey false opts.service_path e1
        = createKey false opts.service_path e2 := by
  have hk : createKey u.force_create opts.service_path env.epoch_millis
      = city_hash_64 (strBytes opts.service_path) := by
    simp [createKey, createKeyInput, hforce]
  simp [poolStep, hconf, hforce, hk, hkey, createKey, createKeyInput]

/-- The user-worker options used by concrete witnesses. -/
def uW : UserWorkerOpts :=
  { key := none
    force_create := false
    pool_msg_tx := none
    events_msg_tx := none }

/-- The init options used by concrete witnesses. -/
def optsW : EdgeContextInitOpts :=
  { service_path := "/svc/a"
    env_vars := []
    import_map_path := none
    no_module_cache := false
    conf := EdgeContextOpts.UserWorker uW }

/-- A registry already holding a profile under the key of `"/svc/a"`. -/
def registryW : List (Nat × UserWorkerProfile) :=
  [(city_hash_64 (strBytes "/svc/a"),
    { worker_event_tx := 1, event_manager_tx := none })]

/-- Witness for C1: a second non-forced `Create` for `"/svc/a"` against a
registry already holding its key. -/
theorem create_dedup_reuses_worker_witness :
    optsW.conf = EdgeContextOpts.UserWorker uW
    ∧ uW.force_create = false
    ∧ (lookupProfile registryW
        (city_hash_64 (strBytes optsW.service_path))).isSome = true
    ∧ ((poolStep none poolEnvW registryW (UserWorkerMsgs.Create optsW true)).reply
          = some (PoolReply.okKey (city_hash_64 (strBytes optsW.service_path)))
      ∧ (poolStep none poolEnvW registryW
          (UserWorkerMsgs.Create optsW true)).registry = registryW
      ∧ (poolStep none poolEnvW registryW
          (UserWorkerMsgs.Create optsW true)).invoked_create_worker = false
      ∧ (poolStep none poolEnvW registryW
          (UserWorkerMsgs.Create optsW true)).host_actions = []
      ∧ (poolStep none poolEnvW registryW
          (UserWorkerMsgs.Create optsW true)).bailed = none
      ∧ ∀ e1 e2 : Nat, createKey false optsW.service_path e1
          = createKey false optsW.service_path e2) :=
  ⟨rfl, rfl, by decide,
    create_dedup_reuses_worker none poolEnvW registryW optsW uW rfl rfl (by decide)⟩

/-- Witness for C7: a request routed into an empty registry. -/
theorem send_request_missing_key_witness :
    lookupProfile [] 5 = none
    ∧ ((poolStep none poolEnvW [] (UserWorkerMsgs.SendRequest 5 0 true)).reply
          = some (PoolReply.err "user worker not available")
      ∧ (poolStep none poolEnvW []
          (UserWorkerMsgs.SendRequest 5 0 true)).reply_delivered = true
      ∧ (poolStep none poolEnvW []
          (UserWorkerMsgs.SendRequest 5 0 true)).spawned_dispatcher = false
      ∧ (poolStep none poolEnvW []
          (UserWorkerMsgs.SendRequest 5 0 true)).registry = []
      ∧ (poolStep none poolEnvW []
          (UserWorkerMsgs.SendRequest 5 0 true)).bailed = none) :=
  ⟨rfl, send_request_missing_key none poolEnvW [] 5 0 rfl⟩

/-- No branch of `create_worker` ever arms the CPU timer: the
`CPUTimer::start` call site (worker_ctx.rs lines 311-313) is commented out
in the source. -/
theorem armsTimer_create_worker (env : CreateWorkerEnv)
    (opts : EdgeContextInitOpts) :
    armsTimer (create_worker env opts).2 = false := by
  rcases opts with ⟨sp, ev, imp, nmc, conf⟩
  cases conf with
  | UserWorker u =>
    rcases u with ⟨k, fc, pt, et⟩
    cases k <;> cases pt <;> cases et <;> cases hpe : env.path_exists <;>
      cases hco : env.construct_ok <;> cases hro : env.run_ok <;>
      simp [create_worker, armsTimer, isArm, hostEmit, shutdownActions,
        workerConfParts, workerThreadName, isUserRuntime, hpe, hco, hro]
  | MainWorker =>
    cases hpe : env.path_exists <;> cases hco : env.construct_ok <;>
      cases hro : env.run_ok <;>
      simp [create_worker, armsTimer, isArm, hostEmit, shutdownActions,
        workerConfParts, workerThreadName, isUserRuntime, hpe, hco, hro]
  | EventsWorker =>
    cases hpe : env.path_exists <;> cases hco : env.construct_ok <;>
      cases hro : env.run_ok <;>
      simp [create_worker, armsTimer, isArm, hostEmit, shutdownActions,
        workerConfParts, workerThreadName, isUserRuntime, hpe, hco, hro]

/-- A user-worker configuration with key, pool sender and event sink set, as
the pool passes to `create_worker`. -/
def c4Opts : EdgeContextInitOpts :=
  { service_path := "/svc/a"
    env_vars := []
    import_map_path := none
    no_module_cache := false
    conf := EdgeContextOpts.UserWorker
      { key := some 7
        force_create := false
        pool_msg_tx := some ()
        events_msg_tx := some () } }

/-- A fully successful `create_worker` environment. -/
def cwEnvOk : CreateWorkerEnv :=
  { path_exists := true
    construct_ok := true
    construct_err := ""
    run_ok := true
    run_err := "" }

/-- Counterexample to C4 as stated: a successfully booted user worker whose
host starts the supervisor and yet never arms the per-thread CPU timer. -/
theorem cpu_timer_not_armed_cx :
    HostAction.StartSupervisor 7 ∈ (create_worker cwEnvOk c4Opts).2
    ∧ armsTimer (create_worker cwEnvOk c4Opts).2 = false := by
  exact ⟨by decide, by decide⟩

/-- Claim C4 (amended): the host never arms the CPU timer - the
`CPUTimer::start` call is disabled in the source - although `CPUTimer::start`
itself, when invoked with working syscalls, installs a per-thread
`CLOCK_THREAD_CPUTIME_ID` timer delivering `SIGALRM` to the given engine
thread with a 10 ms initial expiry and a 10 ms period. -/
theorem cpu_timer_disabled (env : CreateWorkerEnv) (opts : EdgeContextInitOpts)
    (tenv : CPUTimerEnv) (tid : Int)
    (hcr : tenv.timer_create_ok = true) (hse : tenv.timer_settime_ok = true) :
    armsTimer (create_worker env opts).2 = false
    ∧ CPUTimer.start tenv tid = Except.ok
        { clock_thread_cputime := true
          sigev_signo := SIGALRM
          sigev_notify_thread_id := tid
          interval_ns := 10 * 1000000
          initial_ns := 10 * 1000000 } := by
  refine ⟨armsTimer_create_worker env opts, ?_⟩
  simp [CPUTimer.start, hcr, hse]

/-- A CPU-timer environment with both syscalls succeeding. -/
def timerEnvOk : CPUTimerEnv :=
  { timer_create_ok := true
    timer_settime_ok := true
    os_err := "" }

/-- Witness for the amended C4. -/
theorem cpu_timer_disabled_witness :
    timerEnvOk.timer_create_ok = true
    ∧ timerEnvOk.timer_settime_ok = true
    ∧ (armsTimer (create_worker cwEnvOk c4Opts).2 = false
      ∧ CPUTimer.start timerEnvOk 1234
        = Except.ok
          { clock_thread_cputime := true
            sigev_signo := SIGALRM
            sigev_notify_thread_id := 1234
            interval_ns := 10 * 1000000
            initial_ns := 10 * 1000000 }) :=
  ⟨rfl, rfl, cpu_timer_disabled cwEnvOk c4Opts timerEnvOk 1234 rfl rfl⟩

/-- Claim C9: `create_worker` on a non-existent service path returns the
`"service does not exist"` error with an empty host trace (no thread
spawned, no engine constructed), and a `Create` for such a path replies
`Err` without booting anything, leaving the registry unchanged. -/
theorem service_path_missing (sink : Option Unit) (penv : PoolEnv)
    (registry : List (Nat × UserWorkerProfile))
    (opts : EdgeContextInitOpts) (u : UserWorkerOpts)
    (hconf : opts.conf = EdgeContextOpts.UserWorker u)
    (hpe : penv.cw.path_exists = false)
    (hfresh : lookupProfile registry
        (createKey u.force_create opts.service_path penv.epoch_millis) = none) :
    (create_worker penv.cw opts).1
        = Except.error ("service does not exist \"" ++ opts.service_path ++ "\"")
    ∧ (create_worker penv.cw opts).2 = []
    ∧ (poolStep sink penv registry (UserWorkerMsgs.Create opts true)).reply
        = some (PoolReply.err
            ("service does not exist \"" ++ opts.service_path ++ "\""))
    ∧ (poolStep sink penv registry (UserWorkerMsgs.Create opts true)).registry
        = registry
    ∧ (poolStep sink penv registry (UserWorkerMsgs.Create opts true)).host_actions
        = [] := by
  refine ⟨?_, ?_, ?_, ?_, ?_⟩ <;>
    simp [poolStep, hconf, hfresh, create_worker, hpe]

/-- A pool environment whose service path probe fails. -/
def poolEnvMissing : PoolEnv :=
  { epoch_millis := 0
    cw :=
      { path_exists := false
        construct_ok := true
        construct_err := ""
        run_ok := true
        run_err := "" }
    boot_elapsed_s := 0
    req_tx_id := 1 }

/-- Witness for C9: creating `"/svc/a"` when the path probe fails. -/
theorem service_path_missing_witness :
    optsW.conf = EdgeContextOpts.UserWorker uW
    ∧ poolEnvMissing.cw.path_exists = false
    ∧ lookupProfile []
        (createKey uW.force_create optsW.service_path poolEnvMissing.epoch_millis)
        = none
    ∧ ((create_worker poolEnvMissing.cw optsW).1
          = Except.error ("service does not exist \"" ++ optsW.service_path ++ "\"")
      ∧ (create_worker poolEnvMissing.cw optsW).2 = []
      ∧ (poolStep none poolEnvMissing [] (UserWorkerMsgs.Create optsW true)).reply
          = some (PoolReply.err
              ("service does not exist \"" ++ optsW.service_path ++ "\""))
      ∧ (poolStep none poolEnvMissing []
          (UserWorkerMsgs.Create optsW true)).registry = []
      ∧ (poolStep none poolEnvMissing []
          (UserWorkerMsgs.Create optsW true)).host_actions = []) :=
  ⟨rfl, rfl, rfl,
    service_path_missing none poolEnvMissing [] optsW uW rfl rfl rfl⟩

/-- Claim C10: when engine construction fails, the `Create` reply and the
`BootFailure` event both carry the fixed string `"worker boot error"`,
whatever the underlying construction error was, while the actual error is
emitted separately as an `UncaughtException` event from the host thread. -/
theorem boot_error_fixed_message (penv : PoolEnv)
    (registry : List (Nat × UserWorkerProfile))
    (opts : EdgeContextInitOpts) (u : UserWorkerOpts)
    (hconf : opts.conf = EdgeContextOpts.UserWorker u)
    (hpe : penv.cw.path_exists = true)
    (hco : penv.cw.construct_ok = false)
    (hfresh : lookupProfile registry
        (createKey u.force_create opts.service_path penv.epoch_millis) = none) :
    (poolStep (some ()) penv registry (UserWorkerMsgs.Create opts true)).reply
        = some (PoolReply.err "worker boot error")
    ∧ (poolStep (some ()) penv registry (UserWorkerMsgs.Create opts true)).events
        = [WorkerEvents.BootFailure "worker boot error"]
    ∧ HostAction.EmitEvent (WorkerEvents.UncaughtException penv.cw.construct_err)
        ∈ (poolStep (some ()) penv registry
            (UserWorkerMsgs.Create opts true)).host_actions
    ∧ (poolStep (some ()) penv registry (UserWorkerMsgs.Create opts true)).registry
        = registry := by
  refine ⟨?_, ?_, ?_, ?_⟩ <;>
    simp [poolStep, hconf, hfresh, create_worker, hpe, hco, hostEmit,
      shutdownActions, workerConfParts, poolEmit]

/-- A pool environment whose engine construction fails with a distinctive
underlying error. -/
def poolEnvBootFail : PoolEnv :=
  { epoch_millis := 0
    cw :=
      { path_exists := true
        construct_ok := false
        construct_err := "TypeError: import failed"
        run_ok := true
        run_err := "" }
    boot_elapsed_s := 0
    req_tx_id := 1 }

/-- Witness for C10: a failed boot whose underlying error differs from the
fixed reply string. -/
theorem boot_error_fixed_message_witness :
    optsW.conf = EdgeContextOpts.UserWorker uW
    ∧ poolEnvBootFail.cw.path_exists = true
    ∧ poolEnvBootFail.cw.construct_ok = false
    ∧ lookupProfile []
        (createKey uW.force_create optsW.service_path poolEnvBootFail.epoch_millis)
        = none
    ∧ ((poolStep (some ()) poolEnvBootFail []
          (UserWorkerMsgs.Create optsW true)).reply
          = some (PoolReply.err "worker boot error")
      ∧ (poolStep (some ()) poolEnvBootFail []
          (UserWorkerMsgs.Create optsW true)).events
          = [WorkerEvents.BootFailure "worker boot error"]
      ∧ HostAction.EmitEvent
          (WorkerEvents.UncaughtException poolEnvBootFail.cw.construct_err)
          ∈ (poolStep (some ()) poolEnvBootFail []
              (UserWorkerMsgs.Create optsW true)).host_actions
      ∧ (poolStep (some ()) poolEnvBootFail []
          (UserWorkerMsgs.Create optsW true)).registry = []) :=
  ⟨rfl, rfl, rfl, rfl,
    boot_error_fixed_message poolEnvBootFail [] optsW uW rfl rfl rfl rfl⟩

/-- Transport outcomes of a fully successful request round-trip. -/
def c8Transport : TransportEnv :=
  { pair_ok := true
    pair_err := ""
    handshake_ok := true
    handshake_err := ""
    send_result := Except.ok 200 }

/-- A dispatcher whose caller has already dropped the reply slot. -/
def c8Dispatch : DispatchEnv :=
  { inbox_open := true
    transport := c8Transport
    caller_open := false
    event_sink := none }

/-- A registry with one live profile under key 5. -/
def c8Registry : List (Nat × UserWorkerProfile) :=
  [(5, { worker_event_tx := 1, event_manager_tx := none })]

/-- Counterexample to C8 as stated: a `SendRequest` against a live profile
whose caller dropped the reply slot. The pool spawns the dispatcher and
keeps running; the dispatcher finds the slot dropped and only logs it - no
bail happens anywhere. -/
theorem dropped_slot_dispatcher_cx :
    (poolStep none poolEnvW c8Registry (UserWorkerMsgs.SendRequest 5 0 false)).bailed
        = none
    ∧ (poolStep none poolEnvW c8Registry
        (UserWorkerMsgs.SendRequest 5 0 false)).spawned_dispatcher = true
    ∧ (dispatchTask c8Dispatch).caller_send_attempts = 1
    ∧ (dispatchTask c8Dispatch).caller_delivered = false
    ∧ (dispatchTask c8Dispatch).logged_drop = true
    ∧ (dispatchTask c8Dispatch).pool_bailed = false := by
  exact ⟨by decide, by decide, by decide, by decide, by decide, by decide⟩

/-- Claim C8 (amended): a dropped reply slot is fatal to the pool task at
the four delivery sites performed by the pool task itself (Create reuse,
Create boot success, Create boot failure, and the SendRequest missing-key
reply), where it bails with `"main worker receiver dropped"`; but for a
`SendRequest` against a live profile the delivery happens in a detached
dispatcher task, which only logs the dropped slot - the pool task does not
bail there and keeps processing commands. -/
theorem dropped_slot_policy
    (sink : Option Unit) (p1 p2 p3 p4 p5 : PoolEnv)
    (r1 r2 r3 r4 r5 : List (Nat × UserWorkerProfile))
    (o1 o2 o3 : EdgeContextInitOpts) (u1 u2 u3 : UserWorkerOpts)
    (k4 k5 req : Nat) (denv : DispatchEnv)
    (hc1 : o1.conf = EdgeContextOpts.UserWorker u1)
    (hf1 : u1.force_create = false)
    (hk1 : (lookupProfile r1
        (city_hash_64 (strBytes o1.service_path))).isSome = true)
    (hc2 : o2.conf = EdgeContextOpts.UserWorker u2)
    (hfresh2 : lookupProfile r2
        (createKey u2.force_create o2.service_path p2.epoch_millis) = none)
    (hpe2 : p2.cw.path_exists = true)
    (hco2 : p2.cw.construct_ok = true)
    (hc3 : o3.conf = EdgeContextOpts.UserWorker u3)
    (hfresh3 : lookupProfile r3
        (createKey u3.force_create o3.service_path p3.epoch_millis) = none)
    (hpe3 : p3.cw.path_exists = false)
    (hk4 : lookupProfile r4 k4 = none)
    (hk5 : (lookupProfile r5 k5).isSome = true)
    (hdrop : denv.caller_open = false) :
    (poolStep sink p1 r1 (UserWorkerMsgs.Create o1 false)).bailed
        = some "main worker receiver dropped"
    ∧ (poolStep sink p2 r2 (UserWorkerMsgs.Create o2 false)).bailed
        = some "main worker receiver dropped"
    ∧ (poolStep sink p3 r3 (UserWorkerMsgs.Create o3 false)).bailed
        = some "main worker receiver dropped"
    ∧ (poolStep sink p4 r4 (UserWorkerMsgs.SendRequest k4 req false)).bailed
        = some "main worker receiver dropped"
    ∧ (poolStep sink p5 r5 (UserWorkerMsgs.SendRequest k5 req false)).bailed = none
    ∧ (poolStep sink p5 r5
        (UserWorkerMsgs.SendRequest k5 req false)).spawned_dispatcher = true
    ∧ (dispatchTask denv).caller_send_attempts = 1
    ∧ (dispatchTask denv).caller_delivered = false
    ∧ (dispatchTask denv).logged_drop = true
    ∧ (dispatchTask denv).pool_bailed = false := by
  have hk1e : createKey false o1.service_path p1.epoch_millis
      = city_hash_64 (strBytes o1.service_path) := by
    simp [createKey, createKeyInput]
  rcases h5 : lookupProfile r5 k5 with _ | v
  · rw [h5] at hk5
    simp at hk5
  refine ⟨?_, ?_, ?_, ?_, ?_, ?_, ?_, ?_, ?_, ?_⟩
  · simp [poolStep, hc1, hf1, hk1e, hk1]
  · simp [poolStep, hc2, hfresh2, create_worker, hpe2, hco2]
  · simp [poolStep, hc3, hfresh3, create_worker, hpe3]
  · simp [poolStep, hk4]
  · simp [poolStep, h5]
  · simp [poolStep, h5]
  · simp [dispatchTask]
  · simp [dispatchTask, hdrop]
  · simp [dispatchTask, hdrop]
  · simp [dispatchTask]

/-- Witness for the amended C8, instantiating all five delivery sites. -/
theorem dropped_slot_policy_witness :
    optsW.conf = EdgeContextOpts.UserWorker uW
    ∧ uW.force_create = false
    ∧ (lookupProfile registryW
        (city_hash_64 (strBytes optsW.service_path))).isSome = true
    ∧ lookupProfile []
        (createKey uW.force_create optsW.service_path poolEnvW.epoch_millis) = none
    ∧ poolEnvW.cw.path_exists = true
    ∧ poolEnvW.cw.construct_ok = true
    ∧ lookupProfile []
        (createKey uW.force_create optsW.service_path poolEnvMissing.epoch_millis)
        = none
    ∧ poolEnvMissing.cw.path_exists = false
    ∧ lookupProfile [] 9 = none
    ∧ (lookupProfile c8Registry 5).isSome = true
    ∧ c8Dispatch.caller_open = false
    ∧ ((poolStep none poolEnvW registryW (UserWorkerMsgs.Create optsW false)).bailed
          = some "main worker receiver dropped"
      ∧ (poolStep none poolEnvW [] (UserWorkerMsgs.Create optsW false)).bailed
          = some "main worker receiver dropped"
      ∧ (poolStep none poolEnvMissing [] (UserWorkerMsgs.Create optsW false)).bailed
          = some "main worker receiver dropped"
      ∧ (poolStep none poolEnvW [] (UserWorkerMsgs.SendRequest 9 0 false)).bailed
          = some "main worker receiver dropped"
      ∧ (poolStep none poolEnvW c8Registry
          (UserWorkerMsgs.SendRequest 5 0 false)).bailed = none
      ∧ (poolStep none poolEnvW c8Registry
          (UserWorkerMsgs.SendRequest 5 0 false)).spawned_dispatcher = true
      ∧ (dispatchTask c8Dispatch).caller_send_attempts = 1
      ∧ (dispatchTask c8Dispatch).caller_delivered = false
      ∧ (dispatchTask c8Dispatch).logged_drop = true
      ∧ (dispatchTask c8Dispatch).pool_bailed = false) :=
  ⟨rfl, rfl, by decide, by decide, rfl, rfl, by decide, rfl, rfl, by decide, rfl,
    dropped_slot_policy none poolEnvW poolEnvW poolEnvMissing poolEnvW poolEnvW
      registryW [] [] [] c8Registry optsW optsW optsW uW uW uW 9 5 0 c8Dispatch
      rfl rfl (by decide) rfl (by decide) rfl rfl rfl (by decide) rfl rfl
      (by decide) rfl⟩

end EdgeRuntime
